import Mathlib

/-
  Verification development for the telemetry pipeline of the
  FizanMuhammedFaisal/OpenTelementry repository.

  The repository wires a Node application to an OpenTelemetry SDK and a pino
  logger (src/logger.ts holds both the pino transport configuration and the
  instrumentation setup; src/examples/manual-spans.ts and the Express app are
  callers of the SDK).  The span registry, context store, batch processor and
  exporter gateway live in the SDK / libraries rather than under src/, so
  those parts are modelled from the specification (each such definition says
  so in its doc comment).  Configuration reading, transport targets and
  signal handlers are translated directly from src/logger.ts.
-/

namespace OTelPoc

/-- Modelled from the spec: TraceContext (spec section 3).  The span registry
(`tracer.startActiveSpan`) is SDK code not present under src/.  Identifiers
are modelled as naturals; the random 128-bit traceId generator is modelled by
a fresh-counter oracle (see `Registry`), which captures exactly the freshness
the spec demands of it. -/
structure TraceContext where
  traceId : Nat
  spanId : Nat
  parentSpanId : Option Nat
  sampled : Bool
deriving Repr, DecidableEq

/-- Modelled from the spec: the identifier-generation state of the Span
Registry (spec section 4.2).  `mintedTraceIds` records every traceId handed
out so far in the run; `nextTraceId` is the oracle for the next fresh
128-bit identifier. -/
structure Registry where
  nextSpanId : Nat
  nextTraceId : Nat
  mintedTraceIds : List Nat
deriving Repr, DecidableEq

/-- Freshness invariant of the identifier oracle: every traceId minted so far
is below the next one to be handed out. -/
def freshInv (st : Registry) : Prop :=
  ∀ t ∈ st.mintedTraceIds, t < st.nextTraceId

instance (st : Registry) : Decidable (freshInv st) := by
  unfold freshInv; infer_instance

/-- Modelled from the spec: the Context Store (spec section 4.1) keeps a LIFO
stack of open trace contexts per logical thread of control; the current
context is the top of the stack. -/
def currentContext (stack : List TraceContext) : Option TraceContext :=
  stack.head?

/-- Modelled from the spec: `startSpan` (spec section 4.2).  A fresh 64-bit
spanId is drawn from the oracle; if an explicit parent is given its traceId
is used and parentSpanId is set to its spanId; else the ambient context is
consulted; else a fresh traceId is minted and parentSpanId is left unset. -/
def startSpan (st : Registry) (stack : List TraceContext)
    (explicitParent : Option TraceContext) : TraceContext × Registry :=
  let sid := st.nextSpanId
  match explicitParent with
  | some p =>
      (⟨p.traceId, sid, some p.spanId, p.sampled⟩,
       { st with nextSpanId := sid + 1 })
  | none =>
      match stack.head? with
      | some c =>
          (⟨c.traceId, sid, some c.spanId, c.sampled⟩,
           { st with nextSpanId := sid + 1 })
      | none =>
          (⟨st.nextTraceId, sid, none, true⟩,
           { nextSpanId := sid + 1
             nextTraceId := st.nextTraceId + 1
             mintedTraceIds := st.nextTraceId :: st.mintedTraceIds })

/-- Log severities of the data model (spec section 3). -/
inductive LogSeverity
  | debug
  | info
  | warn
  | error
deriving Repr, DecidableEq

/-- Modelled from the spec: LogRecord (spec section 3); `traceId` and
`spanId` are optional correlation fields. -/
structure LogRecord where
  timestamp : Nat
  level : LogSeverity
  message : String
  fields : List (String × String)
  traceId : Option Nat
  spanId : Option Nat
deriving Repr, DecidableEq

/-- Modelled from the spec: the Correlated Logger `log` operation (spec
section 4.5).  It reads the current context from the Context Store; if
present it stamps the record with that traceId/spanId, else both fields are
left absent. -/
def log (stack : List TraceContext) (ts : Nat) (lvl : LogSeverity)
    (msg : String) (fs : List (String × String)) : LogRecord :=
  match stack.head? with
  | some c => ⟨ts, lvl, msg, fs, some c.traceId, some c.spanId⟩
  | none => ⟨ts, lvl, msg, fs, none, none⟩

/-- Interval of the pino-loki push batching, in seconds
(src/logger.ts, loki transport options: batching true, interval 2). -/
def lokiPushIntervalSeconds : Nat := 2

/-- Modelled from the spec: per-buffer flush configuration of the Batch
Processor (spec section 4.3).  The batch processor itself is SDK / pino-loki
worker code not present under src/; the log interval matches the
`interval: 2` option set in src/logger.ts. -/
structure BufferConfig where
  maxSize : Nat
  flushIntervalMs : Nat
deriving Repr, DecidableEq

/-- Modelled from the spec: span buffer defaults — count trigger 512, time
trigger 1s (spec section 4.3; the repository README states the same). -/
def spanBufferConfig : BufferConfig := ⟨512, 1000⟩

/-- Modelled from the spec: log buffer defaults — count trigger 10000, time
trigger 2s (spec section 4.3; the 2s interval is set in src/logger.ts). -/
def logBufferConfig : BufferConfig := ⟨10000, 2000⟩

/-- Modelled from the spec: the flush decision of the Batch Processor — the
count trigger or the time trigger, whichever fires first (spec section
4.3). -/
def shouldFlush (cfg : BufferConfig) (bufLen elapsedMs : Nat) : Bool :=
  decide (cfg.maxSize ≤ bufLen) || decide (cfg.flushIntervalMs ≤ elapsedMs)

/-- Modelled from the spec: a bounded ordered buffer of the Batch Processor
with its RecordDropped counter (spec sections 4.3 and 7). -/
structure BoundedBuffer (α : Type) where
  items : List α
  maxSize : Nat
  droppedCount : Nat

/-- Modelled from the spec: enqueue with drop-oldest backpressure — at
capacity the oldest record is evicted and RecordDropped is incremented
(spec section 4.3). -/
def enqueue {α : Type} (b : BoundedBuffer α) (x : α) : BoundedBuffer α :=
  if b.items.length < b.maxSize then
    { b with items := b.items ++ [x] }
  else
    match b.items with
    | [] => { b with droppedCount := b.droppedCount + 1 }
    | _ :: rest => { b with items := rest ++ [x], droppedCount := b.droppedCount + 1 }

/-- Enqueue a sequence of records in order. -/
def enqueueAll {α : Type} (b : BoundedBuffer α) (xs : List α) : BoundedBuffer α :=
  xs.foldl enqueue b

/-- Modelled from the spec: default retry limit of the Exporter Gateway —
3 attempts (spec section 4.4).  The OTLP exporter itself is SDK code not
present under src/. -/
def defaultMaxAttempts : Nat := 3

/-- Modelled from the spec: exponential backoff delay before retry attempt
`attempt` (spec section 4.4, bounded exponential backoff). -/
def backoffDelayMs (baseMs attempt : Nat) : Nat := baseMs * 2 ^ attempt

/-- Modelled from the spec: the outcome of exporting one batch (spec
section 4.4).  `exportBatch` is a total function into this type: the export
path yields an outcome on every input instead of raising, which is the
no-exception-to-the-producer guarantee. -/
structure ExportOutcome where
  delivered : Bool
  attemptsUsed : Nat
  droppedCount : Nat
deriving Repr, DecidableEq

/-- Modelled from the spec: the index of the first successful push among
the next `remaining` attempts starting at attempt `k`, where `results`
says which attempts would succeed on the wire. -/
def firstSuccess (results : Nat → Bool) (k remaining : Nat) : Option Nat :=
  match remaining with
  | 0 => none
  | r + 1 => if results k then some k else firstSuccess results (k + 1) r

/-- Modelled from the spec: `export(batch)` with bounded retry (spec
section 4.4): up to `maxAttempts` pushes are tried; on the first success
the batch is delivered; on exhausting the attempts the batch is dropped and
RecordDropped grows by the batch size. -/
def exportBatch (results : Nat → Bool) (maxAttempts batchSize dropped : Nat) :
    ExportOutcome :=
  match firstSuccess results 0 maxAttempts with
  | some k => ⟨true, k + 1, dropped⟩
  | none => ⟨false, maxAttempts, dropped + batchSize⟩

/-- Process signals relevant to src/logger.ts. -/
inductive Signal
  | sigterm
  | sigint
  | other (name : String)
deriving Repr, DecidableEq

/-- Signal handlers registered in src/logger.ts: process.on SIGTERM and
process.on SIGINT both invoke the shutdown routine; no other signal is
handled there. -/
def handlesSignal : Signal → Bool
  | .sigterm => true
  | .sigint => true
  | .other _ => false

/-- Modelled from the spec: default shutdown flush deadline of 5 seconds
(spec section 4.4); the shutdown internals live in sdk.shutdown, SDK code
not present under src/. -/
def defaultShutdownDeadlineMs : Nat := 5000

/-- Modelled from the spec: the result of the final shutdown flush of one
buffer (spec section 4.4). -/
structure FinalFlushResult (α : Type) where
  exported : List α
  abandonedCount : Nat
  droppedCount : Nat
deriving Repr

/-- Modelled from the spec: the final synchronous flush-and-export of one
buffer at shutdown (spec section 4.4): the whole buffer is exported in one
call; a call not completing within the deadline is abandoned and its
records are counted as dropped. -/
def finalFlush {α : Type} (deadlineMs exportDurationMs : Nat) (buf : List α)
    (dropped : Nat) : FinalFlushResult α :=
  if exportDurationMs ≤ deadlineMs then ⟨buf, 0, dropped⟩
  else ⟨[], buf.length, dropped + buf.length⟩

/-- Modelled from the spec: shutdown flushes all buffers (spans, then logs)
before process exit (spec sections 4.4 and 6). -/
def shutdownFlush {α β : Type} (deadlineMs spanDurMs logDurMs : Nat)
    (spanBuf : List α) (logBuf : List β) (dropped : Nat) :
    FinalFlushResult α × FinalFlushResult β :=
  let r1 := finalFlush deadlineMs spanDurMs spanBuf dropped
  let r2 := finalFlush deadlineMs logDurMs logBuf r1.droppedCount
  (r1, r2)

/-- The process environment as read through process.env in src/logger.ts: a
partial map from variable names to values. -/
abbrev Env : Type := String → Option String

/-- The JS fallback idiom of src/logger.ts, `process.env.KEY || dflt`: the
default is used when the variable is unset or set to the empty string, the
empty string being falsy in JS. -/
def envOr (env : Env) (key dflt : String) : String :=
  match env key with
  | none => dflt
  | some s => if s = "" then dflt else s

/-- src/logger.ts: LOKI_HOST || the local Loki endpoint. -/
def lokiHost (env : Env) : String :=
  envOr env "LOKI_HOST" "http://localhost:3100"

/-- src/logger.ts: OTEL_SERVICE_NAME || otel-poc-app. -/
def serviceName (env : Env) : String :=
  envOr env "OTEL_SERVICE_NAME" "otel-poc-app"

/-- src/logger.ts: OTEL_SERVICE_VERSION || 1.0.0. -/
def serviceVersion (env : Env) : String :=
  envOr env "OTEL_SERVICE_VERSION" "1.0.0"

/-- src/logger.ts: NODE_ENV || development. -/
def environmentTag (env : Env) : String :=
  envOr env "NODE_ENV" "development"

/-- src/logger.ts: OTEL_EXPORTER_OTLP_ENDPOINT || the local OTLP HTTP
endpoint. -/
def otlpEndpoint (env : Env) : String :=
  envOr env "OTEL_EXPORTER_OTLP_ENDPOINT" "http://localhost:4318"

/-- src/logger.ts: OTEL_EXPORTER_TYPE || otlp. -/
def exporterType (env : Env) : String :=
  envOr env "OTEL_EXPORTER_TYPE" "otlp"

/-- src/logger.ts: LOG_LEVEL || info. -/
def loggerLevel (env : Env) : String :=
  envOr env "LOG_LEVEL" "info"

/-- Modelled from the spec: the batch size override of the configuration
surface (spec section 6, environment-style, optional with a default).  The
reader of this option is SDK code not present under src/; the variable name
follows the SDK convention and the default is the span count trigger of
spec section 4.3. -/
def batchSizeOverride (env : Env) : String :=
  envOr env "OTEL_BSP_MAX_EXPORT_BATCH_SIZE" "512"

/-- Modelled from the spec: the batch interval override of the
configuration surface (spec section 6, environment-style, optional with a
default).  The reader of this option is SDK code not present under src/;
the variable name follows the SDK convention and the default is the span
flush interval of spec section 4.3, in milliseconds. -/
def batchIntervalOverride (env : Env) : String :=
  envOr env "OTEL_BSP_SCHEDULE_DELAY" "1000"

/-- The two exporter families of src/logger.ts setupOpenTelemetry. -/
inductive ExporterKind
  | console
  | otlp
deriving Repr, DecidableEq

/-- src/logger.ts setupOpenTelemetry: console exporters are selected when
EXPORTER_TYPE equals "console"; every other value selects the OTLP
exporters. -/
def selectExporter (t : String) : ExporterKind :=
  if t = "console" then .console else .otlp

/-- src/logger.ts: the metric reader export interval is the constant
10000 ms, not read from the environment. -/
def metricExportIntervalMillis : Nat := 10000

/-- A pino transport target with its pinned level (src/logger.ts). -/
structure TransportTarget where
  targetName : String
  level : String
deriving Repr, DecidableEq

/-- src/logger.ts: the pretty console target, pinned at level info. -/
def consoleTarget : TransportTarget := ⟨"pino-pretty", "info"⟩

/-- src/logger.ts: the Loki push target, pinned at level info. -/
def lokiTarget : TransportTarget := ⟨"pino-loki", "info"⟩

/-- src/logger.ts: the transport targets list of the pino logger — exactly
the local console sink and the remote Loki sink. -/
def loggerTargets : List TransportTarget := [consoleTarget, lokiTarget]

/-- Numeric values of the pino level labels (pino documented level
numbers). -/
def levelValue : String → Nat
  | "trace" => 10
  | "debug" => 20
  | "info" => 30
  | "warn" => 40
  | "error" => 50
  | "fatal" => 60
  | _ => 0

/-- Pino documented level gating: a record reaches a target iff its level
is at or above both the logger level and the per-target level. -/
def deliversTo (lgLevel : String) (t : TransportTarget) (recLevel : String) : Bool :=
  decide (levelValue lgLevel ≤ levelValue recLevel) &&
  decide (levelValue t.level ≤ levelValue recLevel)

/-- One log emission against the two sinks configured in src/logger.ts.
The first component is delivery to the local console sink, computed with no
reference to the remote path; the second is delivery to the remote Loki
sink, which additionally requires the remote push to succeed. -/
def emit (env : Env) (remoteOk : Bool) (recLevel : String) : Bool × Bool :=
  (deliversTo (loggerLevel env) consoleTarget recLevel,
   deliversTo (loggerLevel env) lokiTarget recLevel && remoteOk)

end OTelPoc

namespace OTelPoc

/-- One enqueue into a full buffer drops exactly the oldest record, keeps the
length at capacity and increments the RecordDropped counter once. -/
theorem enqueue_full_step {α : Type} (b : BoundedBuffer α) (x : α)
    (hfull : b.items.length = b.maxSize) :
    (enqueue b x).items = (b.items ++ [x]).drop 1 ∧
    (enqueue b x).items.length = b.maxSize ∧
    (enqueue b x).maxSize = b.maxSize ∧
    (enqueue b x).droppedCount = b.droppedCount + 1 := by
  unfold enqueue
  rw [hfull, if_neg (lt_irrefl _)]
  cases hitems : b.items with
  | nil =>
      simp only [hitems] at hfull
      simp [← hfull]
  | cons h rest =>
      have hlen : rest.length + 1 = b.maxSize := by
        have := hfull
        rw [hitems] at this
        simpa using this
      simp [hlen]

/-- Claim C1: a span started while another span is active inherits the
parent traceId and records the parent spanId as its parentSpanId; when an
explicit parent is given, that parent supplies both instead of the ambient
context. -/
theorem nested_span_linkage (st : Registry) (stack : List TraceContext)
    (parent : TraceContext) :
    (currentContext stack = some parent →
      ((startSpan st stack none).1.traceId = parent.traceId ∧
       (startSpan st stack none).1.parentSpanId = some parent.spanId)) ∧
    (∀ p : TraceContext,
      (startSpan st stack (some p)).1.traceId = p.traceId ∧
      (startSpan st stack (some p)).1.parentSpanId = some p.spanId) := by
  constructor
  · intro h
    simp only [currentContext] at h
    simp [startSpan, h]
  · intro p
    simp [startSpan]

/-- Witness for C1: with a concrete parent on the stack the child inherits
traceId 7 and parentSpanId 3; with an explicit parent its ids are used. -/
theorem nested_span_linkage_witness :
    (currentContext [⟨7, 3, none, true⟩] = some ⟨7, 3, none, true⟩ ∧
      ((startSpan ⟨10, 20, []⟩ [⟨7, 3, none, true⟩] none).1.traceId = 7 ∧
       (startSpan ⟨10, 20, []⟩ [⟨7, 3, none, true⟩] none).1.parentSpanId = some 3)) ∧
    ((startSpan ⟨10, 20, []⟩ [] (some ⟨9, 4, none, true⟩)).1.traceId = 9 ∧
     (startSpan ⟨10, 20, []⟩ [] (some ⟨9, 4, none, true⟩)).1.parentSpanId = some 4) := by
  refine ⟨⟨by decide, ?_⟩, ?_⟩
  · exact (nested_span_linkage ⟨10, 20, []⟩ [⟨7, 3, none, true⟩] ⟨7, 3, none, true⟩).1 (by decide)
  · exact (nested_span_linkage ⟨10, 20, []⟩ [] ⟨7, 3, none, true⟩).2 ⟨9, 4, none, true⟩

/-- Claim C2: a span started with no ambient context and no explicit parent
has parentSpanId absent and carries a freshly minted traceId distinct from
every previously minted traceId; the freshness invariant is preserved. -/
theorem root_span_fresh (st : Registry) (stack : List TraceContext)
    (hfresh : freshInv st) (hroot : currentContext stack = none) :
    (startSpan st stack none).1.parentSpanId = none ∧
    (startSpan st stack none).1.traceId ∉ st.mintedTraceIds ∧
    freshInv (startSpan st stack none).2 := by
  simp only [currentContext] at hroot
  refine ⟨?_, ?_, ?_⟩
  · simp [startSpan, hroot]
  · simp only [startSpan, hroot]
    intro hmem
    exact absurd (hfresh _ hmem) (lt_irrefl _)
  · simp only [startSpan, hroot, freshInv]
    intro t ht
    rcases List.mem_cons.mp ht with h | h
    · subst h; exact Nat.lt_succ_self _
    · exact Nat.lt_succ_of_lt (hfresh _ h)

/-- Witness for C2: from a registry that already minted traces 0 and 1, a
root span has no parentSpanId and its traceId 2 is new. -/
theorem root_span_fresh_witness :
    freshInv ⟨5, 2, [1, 0]⟩ ∧ currentContext ([] : List TraceContext) = none ∧
    ((startSpan ⟨5, 2, [1, 0]⟩ [] none).1.parentSpanId = none ∧
     (startSpan ⟨5, 2, [1, 0]⟩ [] none).1.traceId ∉ [1, 0] ∧
     freshInv (startSpan ⟨5, 2, [1, 0]⟩ [] none).2) :=
  ⟨by decide, rfl, root_span_fresh ⟨5, 2, [1, 0]⟩ [] (by decide) rfl⟩

/-- Claim C3: a log emitted while a span is active carries that span's
traceId and spanId; a log emitted with no active span carries neither. -/
theorem log_trace_correlation (stack : List TraceContext) (ts : Nat)
    (lvl : LogSeverity) (msg : String) (fs : List (String × String)) :
    (∀ c : TraceContext, currentContext stack = some c →
      ((log stack ts lvl msg fs).traceId = some c.traceId ∧
       (log stack ts lvl msg fs).spanId = some c.spanId)) ∧
    (currentContext stack = none →
      ((log stack ts lvl msg fs).traceId = none ∧
       (log stack ts lvl msg fs).spanId = none)) := by
  constructor
  · intro c hc
    simp only [currentContext] at hc
    simp [log, hc]
  · intro h
    simp only [currentContext] at h
    simp [log, h]

/-- Claim C4: a buffer flushes when the count trigger (length reaches the
configured maximum: 512 for spans, 10000 for logs) or the time trigger
(1s for spans, 2s for logs since the last flush) fires, whichever occurs
first; the time trigger fires even on an empty or partially full buffer. -/
theorem flush_triggers (cfg : BufferConfig) (bufLen elapsedMs : Nat) :
    (shouldFlush cfg bufLen elapsedMs = true ↔
      (cfg.maxSize ≤ bufLen ∨ cfg.flushIntervalMs ≤ elapsedMs)) ∧
    (cfg.flushIntervalMs ≤ elapsedMs → shouldFlush cfg 0 elapsedMs = true) ∧
    (cfg.maxSize ≤ bufLen → shouldFlush cfg bufLen 0 = true) ∧
    spanBufferConfig = ⟨512, 1000⟩ ∧
    logBufferConfig = ⟨10000, 2000⟩ ∧
    logBufferConfig.flushIntervalMs = lokiPushIntervalSeconds * 1000 := by
  refine ⟨?_, ?_, ?_, rfl, rfl, rfl⟩
  · simp [shouldFlush]
  · intro h
    simp [shouldFlush, h]
  · intro h
    simp [shouldFlush, h]

/-- Witness for C4: with the log buffer defaults, 2000ms elapsed flushes an
empty buffer and 10000 queued records flush with no time elapsed. -/
theorem flush_triggers_witness :
    (shouldFlush logBufferConfig 3 2000 = true ↔
      (logBufferConfig.maxSize ≤ 3 ∨ logBufferConfig.flushIntervalMs ≤ 2000)) ∧
    (logBufferConfig.flushIntervalMs ≤ 2000 ∧ shouldFlush logBufferConfig 0 2000 = true) ∧
    (logBufferConfig.maxSize ≤ 10000 ∧ shouldFlush logBufferConfig 10000 0 = true) :=
  ⟨(flush_triggers logBufferConfig 3 2000).1,
   ⟨by decide, (flush_triggers logBufferConfig 3 2000).2.1 (by decide)⟩,
   ⟨by decide, (flush_triggers logBufferConfig 10000 2000).2.2.1 (by decide)⟩⟩

/-- Claim C5: overflowing a buffer at capacity with N new records evicts
exactly the N oldest records, increments RecordDropped by exactly N, keeps
the length at capacity and preserves the relative order of the retained
records (they are the suffix obtained by dropping the N oldest of the old
contents followed by the new records, in arrival order). -/
theorem overflow_drop_oldest {α : Type} (b : BoundedBuffer α) (xs : List α)
    (hfull : b.items.length = b.maxSize) :
    (enqueueAll b xs).items = (b.items ++ xs).drop xs.length ∧
    (enqueueAll b xs).items.length = b.maxSize ∧
    (enqueueAll b xs).droppedCount = b.droppedCount + xs.length := by
  induction xs generalizing b with
  | nil =>
      simp [enqueueAll, hfull]
  | cons x xs ih =>
      obtain ⟨hstep, hlen, hmax, hdrop⟩ := enqueue_full_step b x hfull
      have hfull' : (enqueue b x).items.length = (enqueue b x).maxSize := by
        rw [hlen, hmax]
      obtain ⟨h1, h2, h3⟩ := ih (enqueue b x) hfull'
      have hstepAll : enqueueAll b (x :: xs) = enqueueAll (enqueue b x) xs := rfl
      refine ⟨?_, ?_, ?_⟩
      · rw [hstepAll, h1, hstep]
        have h1le : (1 : Nat) ≤ (b.items ++ [x]).length := by simp
        rw [← List.drop_append_of_le_length h1le, List.drop_drop]
        have hl : b.items ++ [x] ++ xs = b.items ++ x :: xs := by simp
        rw [hl, List.length_cons]
        congr 1
        omega
      · rw [hstepAll, h2, hmax]
      · rw [hstepAll, h3, hdrop, List.length_cons]
        omega

/-- Witness for C5: a full buffer [1, 2, 3] of capacity 3 receiving [4, 5]
retains [3, 4, 5] in order and counts 2 drops. -/
theorem overflow_drop_oldest_witness :
    ((⟨[1, 2, 3], 3, 0⟩ : BoundedBuffer Nat).items.length = 3) ∧
    (enqueueAll (⟨[1, 2, 3], 3, 0⟩ : BoundedBuffer Nat) [4, 5]).items =
      ([1, 2, 3] ++ [4, 5]).drop 2 ∧
    (enqueueAll (⟨[1, 2, 3], 3, 0⟩ : BoundedBuffer Nat) [4, 5]).items.length = 3 ∧
    (enqueueAll (⟨[1, 2, 3], 3, 0⟩ : BoundedBuffer Nat) [4, 5]).droppedCount = 0 + 2 :=
  ⟨rfl, overflow_drop_oldest (⟨[1, 2, 3], 3, 0⟩ : BoundedBuffer Nat) [4, 5] rfl⟩

/-- Witness for C3: with span (traceId 11, spanId 6) active the record is
stamped with both ids; with an empty stack both fields are absent. -/
theorem log_trace_correlation_witness :
    ((log [⟨11, 6, none, true⟩] 0 .info "m" []).traceId = some 11 ∧
     (log [⟨11, 6, none, true⟩] 0 .info "m" []).spanId = some 6) ∧
    ((log [] 0 .info "m" []).traceId = none ∧
     (log [] 0 .info "m" []).spanId = none) :=
  ⟨(log_trace_correlation [⟨11, 6, none, true⟩] 0 .info "m" []).1
      ⟨11, 6, none, true⟩ (by decide),
   (log_trace_correlation [] 0 .info "m" []).2 rfl⟩

/-- A successful attempt found by the bounded retry scan lies within the
attempt budget. -/
theorem firstSuccess_lt (results : Nat → Bool) :
    ∀ remaining k j, firstSuccess results k remaining = some j → j < k + remaining := by
  intro remaining
  induction remaining with
  | zero =>
      intro k j h
      simp [firstSuccess] at h
  | succ r ih =>
      intro k j h
      unfold firstSuccess at h
      cases hres : results k with
      | true =>
          rw [hres] at h
          simp at h
          omega
      | false =>
          rw [hres] at h
          simp at h
          have := ih (k + 1) j h
          omega

/-- Claim C6: a batch whose pushes all fail is retried up to the default
limit of 3 attempts with exponential (doubling) backoff; on exhaustion the
batch is dropped and RecordDropped grows by the batch size; the number of
attempts never exceeds the limit, and the export path returns an outcome on
every input rather than raising to the producer. -/
theorem export_retry_exhaustion (results : Nat → Bool)
    (batchSize dropped baseMs : Nat)
    (hfail : ∀ k < defaultMaxAttempts, results k = false) :
    exportBatch results defaultMaxAttempts batchSize dropped =
      ⟨false, defaultMaxAttempts, dropped + batchSize⟩ ∧
    (∀ maxAttempts bs d,
      (exportBatch results maxAttempts bs d).attemptsUsed ≤ maxAttempts) ∧
    (∀ attempt, backoffDelayMs baseMs (attempt + 1) =
      2 * backoffDelayMs baseMs attempt) := by
  refine ⟨?_, ?_, ?_⟩
  · have h0 := hfail 0 (by decide)
    have h1 := hfail 1 (by decide)
    have h2 := hfail 2 (by decide)
    simp [exportBatch, defaultMaxAttempts, firstSuccess, h0, h1, h2]
  · intro m bs d
    unfold exportBatch
    cases hfs : firstSuccess results 0 m with
    | none => simp
    | some k =>
        have := firstSuccess_lt results m 0 k hfs
        simp only
        omega
  · intro attempt
    simp [backoffDelayMs, pow_succ]
    ring

/-- Witness for C6: an exporter failing every attempt drops a batch of 4
records after exactly the 3 default attempts, incrementing RecordDropped by
4, and the backoff doubles between attempts. -/
theorem export_retry_exhaustion_witness :
    exportBatch (fun _ => false) defaultMaxAttempts 4 0 =
      ⟨false, defaultMaxAttempts, 0 + 4⟩ ∧
    (exportBatch (fun _ => false) 3 4 0).attemptsUsed ≤ 3 ∧
    backoffDelayMs 100 1 = 2 * backoffDelayMs 100 0 :=
  ⟨(export_retry_exhaustion (fun _ => false) 4 0 100 (fun _ _ => rfl)).1,
   (export_retry_exhaustion (fun _ => false) 4 0 100 (fun _ _ => rfl)).2.1 3 4 0,
   (export_retry_exhaustion (fun _ => false) 4 0 100 (fun _ _ => rfl)).2.2 0⟩

/-- Claim C7: the termination signals SIGTERM and SIGINT invoke the
shutdown routine; the shutdown performs one final flush-and-export of all
buffers with a default deadline of 5000 ms; an export completing within the
deadline delivers the whole buffer, one that does not is abandoned and its
records counted as dropped. -/
theorem shutdown_final_flush {α β : Type} (deadlineMs durMs : Nat)
    (buf : List α) (dropped : Nat) (spanDurMs logDurMs : Nat)
    (spanBuf : List α) (logBuf : List β) :
    handlesSignal .sigterm = true ∧
    handlesSignal .sigint = true ∧
    defaultShutdownDeadlineMs = 5000 ∧
    (durMs ≤ deadlineMs →
      finalFlush deadlineMs durMs buf dropped = ⟨buf, 0, dropped⟩) ∧
    (deadlineMs < durMs →
      finalFlush deadlineMs durMs buf dropped =
        ⟨[], buf.length, dropped + buf.length⟩) ∧
    shutdownFlush deadlineMs spanDurMs logDurMs spanBuf logBuf dropped =
      (finalFlush deadlineMs spanDurMs spanBuf dropped,
       finalFlush deadlineMs logDurMs logBuf
         (finalFlush deadlineMs spanDurMs spanBuf dropped).droppedCount) := by
  refine ⟨rfl, rfl, rfl, ?_, ?_, rfl⟩
  · intro h
    unfold finalFlush
    rw [if_pos h]
  · intro h
    unfold finalFlush
    rw [if_neg (by omega)]

/-- Witness for C7: with the default 5000 ms deadline, a 3000 ms export
delivers the whole buffer, while a 7000 ms export is abandoned and its two
records are counted as dropped. -/
theorem shutdown_final_flush_witness :
    handlesSignal .sigterm = true ∧
    ((3000 : Nat) ≤ 5000 ∧
      finalFlush 5000 3000 [1, 2] 0 = ⟨[1, 2], 0, 0⟩) ∧
    ((5000 : Nat) < 7000 ∧
      finalFlush 5000 7000 [1, 2] 0 =
        ⟨[], ([1, 2] : List Nat).length, 0 + ([1, 2] : List Nat).length⟩) :=
  ⟨(shutdown_final_flush 5000 3000 [1, 2] 0 0 0 [] ([] : List Nat)).1,
   ⟨by decide,
    (shutdown_final_flush 5000 3000 [1, 2] 0 0 0 [] ([] : List Nat)).2.2.2.1
      (by decide)⟩,
   ⟨by decide,
    (shutdown_final_flush 5000 7000 [1, 2] 0 0 0 [] ([] : List Nat)).2.2.2.2.1
      (by decide)⟩⟩

/-- Claim C8: the logger is configured with exactly two sinks — the local
pretty console target and the remote Loki push target; the local delivery
result never depends on whether the remote push succeeds; a record passing
the level gate is delivered locally, and also remotely whenever the remote
push succeeds. -/
theorem dual_sink_independence (env : Env) (remoteOk : Bool) (recLevel : String) :
    loggerTargets = [consoleTarget, lokiTarget] ∧
    (emit env remoteOk recLevel).1 = (emit env true recLevel).1 ∧
    (deliversTo (loggerLevel env) consoleTarget recLevel = true →
      (emit env remoteOk recLevel).1 = true) ∧
    (remoteOk = true →
      deliversTo (loggerLevel env) lokiTarget recLevel = true →
      (emit env remoteOk recLevel).2 = true) := by
  refine ⟨rfl, rfl, fun h => h, fun h1 h2 => ?_⟩
  show (deliversTo (loggerLevel env) lokiTarget recLevel && remoteOk) = true
  rw [h1, h2]
  rfl

/-- Witness for C8: with the default environment, an info record is
delivered to the local sink even when the remote push fails, and the local
result equals the one computed with a healthy remote path. -/
theorem dual_sink_independence_witness :
    deliversTo (loggerLevel (fun _ => none)) consoleTarget "info" = true ∧
    (emit (fun _ => none) false "info").1 = true ∧
    (emit (fun _ => none) false "info").1 = (emit (fun _ => none) true "info").1 :=
  ⟨by decide,
   (dual_sink_independence (fun _ => none) false "info").2.2.1 (by decide),
   (dual_sink_independence (fun _ => none) false "info").2.1⟩

/-- Claim C9 counterexample: the export mode of the code does not take the
values console/remote — its default value is "otlp", which is neither of
those, and "remote" is not a recognized mode of its own: it falls into the
otlp branch like every non-console string. -/
theorem export_mode_counterexample :
    exporterType (fun _ => none) = "otlp" ∧
    ¬ (("otlp" : String) = "console" ∨ ("otlp" : String) = "remote") ∧
    selectExporter "remote" = ExporterKind.otlp := by
  refine ⟨rfl, by decide, by decide⟩

/-- Claim C9 (amended): every configuration option — service name, service
version, environment tag, collector endpoint URL, log endpoint URL, export
mode, batch size/interval overrides, log level — is read from an
environment variable, is optional, and falls back to a default when unset
(or, the variables being read through the JS fallback idiom, when set to
the empty string); the export mode takes the values "console" or "otlp". -/
theorem config_env_defaults (env : Env) (v : String) :
    (serviceName (fun _ => none) = "otel-poc-app" ∧
     serviceVersion (fun _ => none) = "1.0.0" ∧
     environmentTag (fun _ => none) = "development" ∧
     otlpEndpoint (fun _ => none) = "http://localhost:4318" ∧
     lokiHost (fun _ => none) = "http://localhost:3100" ∧
     exporterType (fun _ => none) = "otlp" ∧
     loggerLevel (fun _ => none) = "info" ∧
     batchSizeOverride (fun _ => none) = "512" ∧
     batchIntervalOverride (fun _ => none) = "1000") ∧
    (v ≠ "" →
     ((env "OTEL_SERVICE_NAME" = some v → serviceName env = v) ∧
      (env "OTEL_SERVICE_VERSION" = some v → serviceVersion env = v) ∧
      (env "NODE_ENV" = some v → environmentTag env = v) ∧
      (env "OTEL_EXPORTER_OTLP_ENDPOINT" = some v → otlpEndpoint env = v) ∧
      (env "LOKI_HOST" = some v → lokiHost env = v) ∧
      (env "OTEL_EXPORTER_TYPE" = some v → exporterType env = v) ∧
      (env "LOG_LEVEL" = some v → loggerLevel env = v) ∧
      (env "OTEL_BSP_MAX_EXPORT_BATCH_SIZE" = some v → batchSizeOverride env = v) ∧
      (env "OTEL_BSP_SCHEDULE_DELAY" = some v → batchIntervalOverride env = v))) ∧
    ((env "OTEL_SERVICE_NAME" = some "" → serviceName env = "otel-poc-app") ∧
     (env "OTEL_SERVICE_VERSION" = some "" → serviceVersion env = "1.0.0") ∧
     (env "NODE_ENV" = some "" → environmentTag env = "development") ∧
     (env "OTEL_EXPORTER_OTLP_ENDPOINT" = some "" →
       otlpEndpoint env = "http://localhost:4318") ∧
     (env "LOKI_HOST" = some "" → lokiHost env = "http://localhost:3100") ∧
     (env "OTEL_EXPORTER_TYPE" = some "" → exporterType env = "otlp") ∧
     (env "LOG_LEVEL" = some "" → loggerLevel env = "info") ∧
     (env "OTEL_BSP_MAX_EXPORT_BATCH_SIZE" = some "" →
       batchSizeOverride env = "512") ∧
     (env "OTEL_BSP_SCHEDULE_DELAY" = some "" →
       batchIntervalOverride env = "1000")) ∧
    (selectExporter "console" = ExporterKind.console ∧
     ∀ t : String, t ≠ "console" → selectExporter t = ExporterKind.otlp) := by
  refine ⟨⟨rfl, rfl, rfl, rfl, rfl, rfl, rfl, rfl, rfl⟩,
          ?_, ⟨?_, ?_, ?_, ?_, ?_, ?_, ?_, ?_, ?_⟩, ⟨by decide, ?_⟩⟩
  · intro hne
    refine ⟨?_, ?_, ?_, ?_, ?_, ?_, ?_, ?_, ?_⟩
    case _ => intro h; simp [serviceName, envOr, h, hne]
    case _ => intro h; simp [serviceVersion, envOr, h, hne]
    case _ => intro h; simp [environmentTag, envOr, h, hne]
    case _ => intro h; simp [otlpEndpoint, envOr, h, hne]
    case _ => intro h; simp [lokiHost, envOr, h, hne]
    case _ => intro h; simp [exporterType, envOr, h, hne]
    case _ => intro h; simp [loggerLevel, envOr, h, hne]
    case _ => intro h; simp [batchSizeOverride, envOr, h, hne]
    case _ => intro h; simp [batchIntervalOverride, envOr, h, hne]
  case _ => intro h; simp [serviceName, envOr, h]
  case _ => intro h; simp [serviceVersion, envOr, h]
  case _ => intro h; simp [environmentTag, envOr, h]
  case _ => intro h; simp [otlpEndpoint, envOr, h]
  case _ => intro h; simp [lokiHost, envOr, h]
  case _ => intro h; simp [exporterType, envOr, h]
  case _ => intro h; simp [loggerLevel, envOr, h]
  case _ => intro h; simp [batchSizeOverride, envOr, h]
  case _ => intro h; simp [batchIntervalOverride, envOr, h]
  case _ => intro t ht; simp [selectExporter, ht]

/-- Witness for C9 (amended): a LOG_LEVEL set to the nonempty value debug
is used verbatim, a LOG_LEVEL set to the empty string falls back to info,
the unset service name falls back to its default, and the mode "console"
selects the console exporters. -/
theorem config_env_defaults_witness :
    (("debug" : String) ≠ "" ∧
      (fun _ => some "debug" : Env) "LOG_LEVEL" = some "debug" ∧
      loggerLevel (fun _ => some "debug") = "debug") ∧
    ((fun _ => some "" : Env) "LOG_LEVEL" = some "" ∧
      loggerLevel (fun _ => some "") = "info") ∧
    serviceName (fun _ => none) = "otel-poc-app" ∧
    selectExporter "console" = ExporterKind.console :=
  ⟨⟨by decide, rfl,
    ((config_env_defaults (fun _ => some "debug") "debug").2.1
        (by decide)).2.2.2.2.2.2.1 rfl⟩,
   ⟨rfl,
    (config_env_defaults (fun _ => some "") "debug").2.2.1.2.2.2.2.2.2.1 rfl⟩,
   (config_env_defaults (fun _ => none) "debug").1.1,
   (config_env_defaults (fun _ => some "debug") "debug").2.2.2.1⟩

/-- Claim C10: both transport targets are pinned at level "info", so a
record below INFO severity is delivered to neither sink, for every value of
the LOG_LEVEL environment variable and regardless of the remote path. -/
theorem info_level_floor (env : Env) (remoteOk : Bool) (recLevel : String)
    (h : levelValue recLevel < levelValue "info") :
    (emit env remoteOk recLevel).1 = false ∧
    (emit env remoteOk recLevel).2 = false := by
  have hgate : ∀ t : TransportTarget, t.level = "info" →
      deliversTo (loggerLevel env) t recLevel = false := by
    intro t ht
    unfold deliversTo
    rw [ht]
    have hfloor : decide (levelValue "info" ≤ levelValue recLevel) = false := by
      rw [decide_eq_false_iff_not]
      omega
    rw [hfloor, Bool.and_false]
  constructor
  · exact hgate consoleTarget rfl
  · show (deliversTo (loggerLevel env) lokiTarget recLevel && remoteOk) = false
    rw [hgate lokiTarget rfl, Bool.false_and]

/-- Witness for C10: even with LOG_LEVEL set to debug, a debug record
reaches neither the console sink nor the Loki sink. -/
theorem info_level_floor_witness :
    levelValue "debug" < levelValue "info" ∧
    (emit (fun _ => some "debug") true "debug").1 = false ∧
    (emit (fun _ => some "debug") true "debug").2 = false :=
  ⟨by decide,
   (info_level_floor (fun _ => some "debug") true "debug" (by decide)).1,
   (info_level_floor (fun _ => some "debug") true "debug" (by decide)).2⟩

end OTelPoc
